import Mathlib

/-!
Verification of the interviewer-agent dialogue engine.

The development shallowly embeds the Python sources of the repository:

* `src/agents.py`        — keyword-based engine (namespace `Agents`);
* `src/scr/agents.py`    — LLM-judge engine with a bounded follow-up budget
                           (namespace `ScrAgents`);
* `src/scr/app.py`       — per-session answer delivery (namespace `ScrApp`).

Python `str` values are modelled as Lean `String`; `str.lower`, `str.strip`
and the regular expression actually built by `find_missing_keywords`
(word boundary, then the escaped lowered keyword with every escaped space
replaced by a one-or-more class of whitespace, hyphen, slash, backslash and
underscore, then word boundary, searched with `re.search`) are modelled
character by character for ASCII
input, which is the alphabet the keyword matcher is used with.
-/

/-- ASCII lowering, the behaviour of Python `str.lower` on ASCII text:
characters with code 65–90 are shifted by 32, all others are unchanged. -/
def lowerChar (c : Char) : Char :=
  if 65 ≤ c.toNat ∧ c.toNat ≤ 90 then Char.ofNat (c.toNat + 32) else c

/-- `answer.lower()` / `kw.lower()` from `find_missing_keywords`. -/
def lowerStr (s : String) : String := String.mk (s.data.map lowerChar)

/-- Python `\s` on ASCII: space, tab, newline, carriage return,
vertical tab, form feed. -/
def isPySpace (c : Char) : Bool :=
  c == ' ' || c == '\t' || c == '\n' || c == '\r' || c == '\x0b' || c == '\x0c'

/-- The separator character class (whitespace, hyphen, slash, backslash,
underscore) that `find_missing_keywords` substitutes for each escaped
space of the keyword. -/
def isSepChar (c : Char) : Bool :=
  isPySpace c || c == '-' || c == '/' || c == '\\' || c == '_'

/-- Python regex `\w` on ASCII: letters, digits and underscore.  Used by the
`\b` word-boundary anchors of the keyword pattern. -/
def isWordChar (c : Char) : Bool :=
  (97 ≤ c.toNat && c.toNat ≤ 122) || (65 ≤ c.toNat && c.toNat ≤ 90) ||
    (48 ≤ c.toNat && c.toNat ≤ 57) || c == '_'

/-- Word-character test on an optional character; positions outside the
string count as non-word, exactly as `re` treats the ends of the input. -/
def isWordOpt : Option Char → Bool
  | none => false
  | some c => isWordChar c

/-- `\b` holds between two (possibly absent) adjacent characters iff exactly
one of them is a word character. -/
def atBoundary (prev next : Option Char) : Bool := isWordOpt prev != isWordOpt next

/-- One token of the pattern `find_missing_keywords` compiles: every escaped
space of the lowered keyword becomes the one-or-more separator class
(`sep`), every other character stays a literal (`lit`). -/
inductive PatTok where
  | lit (c : Char)
  | sep
deriving Repr, DecidableEq

/-- Tokenisation of the pattern body built in `find_missing_keywords`:
`re.escape` turns each space of the lowered keyword into an escaped space
and leaves every other character a literal, so the subsequent `replace`
turns exactly the spaces into separator groups. -/
def kwTokens (kw : String) : List PatTok :=
  kw.data.map (fun c => if c == ' ' then PatTok.sep else PatTok.lit c)

/-- Backtracking matcher for the token list against a prefix of `rest`;
`last` is the character just before the current position (`none` at the
start of the input).  When the tokens are exhausted the closing `\b` is
checked between the last consumed character and the next input character.
`sep` consumes one or more separator characters (the `+` quantifier). -/
def toksMatch : List Char → List PatTok → Option Char → Bool
  | rest, [], last => atBoundary last rest.head?
  | [], PatTok.lit _ :: _, _ => false
  | [], PatTok.sep :: _, _ => false
  | r :: rs, PatTok.lit c :: ts, _ => c == r && toksMatch rs ts (some r)
  | r :: rs, PatTok.sep :: ts, _ =>
      isSepChar r && (toksMatch rs ts (some r) || toksMatch rs (PatTok.sep :: ts) (some r))

/-- `re.search`: try the anchored pattern at every start position.  The
opening `\b` is checked between the previous character and the character at
the candidate position. -/
def searchAux (toks : List PatTok) : Option Char → List Char → Bool
  | prev, [] => atBoundary prev none && toksMatch [] toks prev
  | prev, r :: rs =>
      (atBoundary prev (some r) && toksMatch (r :: rs) toks prev) ||
        searchAux toks (some r) rs

/-- `re.search(pattern, a)` for the keyword pattern, over the whole input. -/
def reSearch (toks : List PatTok) (a : List Char) : Bool := searchAux toks none a

/-- Whether the boundary-anchored pattern of one keyword matches somewhere
in the already-lowered answer `a` (the `re.search` call is not None). -/
def kwFound (a : String) (kw : String) : Bool :=
  reSearch (kwTokens (lowerStr kw)) a.data

/-- The keyword-collecting loop of `find_missing_keywords`
(`src/agents.py` lines 41–46, identically `src/src/agents.py`). -/
def missingLoop (a : String) : List String → List String
  | [] => []
  | kw :: rest =>
      if kwFound a kw then missingLoop a rest else kw :: missingLoop a rest

/-- `find_missing_keywords` from `src/agents.py` lines 36–47 (the same
function appears verbatim in `src/src/agents.py` lines 29–43): lower the
answer once, keep every required keyword whose tolerant whole-token pattern
has no match in it, in input order. -/
def find_missing_keywords (answer : String) (required_keywords : List String) : List String :=
  if required_keywords.isEmpty then []
  else missingLoop (lowerStr answer) required_keywords

/-- Python `str.strip()`: remove leading and trailing whitespace. -/
def pyStrip (s : String) : String :=
  String.mk (((s.data.dropWhile isPySpace).reverse.dropWhile isPySpace).reverse)

namespace Agents

/-- One question of the job configuration: `{id, text, required_keywords,
guidance}` as consumed by `src/agents.py` (`q["id"]`, `q["text"]`,
`q.get("required_keywords", [])`, `q.get("guidance", "")`). -/
structure Question where
  id : String
  text : String
  required_keywords : List String
  guidance : String
deriving Repr, DecidableEq, Inhabited

/-- One entry of `state["answers"]` as appended by `node_evaluate_answer`
(`src/agents.py` lines 88–95). -/
structure AnswerRecord where
  question_id : String
  question : String
  answer : String
  missing : List String
  notes : String
deriving Repr, DecidableEq

/-- The `AgentState` TypedDict of `src/agents.py`.  The optional dict keys
read with `.get(..., default)` are modelled as total fields holding the
default when absent. -/
structure AgentState where
  jd : String
  questions : List Question
  q_idx : Nat
  latest_answer : Option String
  pending_followups : List String
  last_prompt : Option String
  answers : List AnswerRecord
  done : Bool
deriving Repr, DecidableEq

/-- The `JobConfig` dataclass of `src/agents.py`. -/
structure JobConfig where
  job_description : String
  questions : List Question
deriving Repr, DecidableEq

/-- `initial_state_from_config` from `src/agents.py` lines 148–158. -/
def initial_state_from_config (cfg : JobConfig) : AgentState :=
  { jd := cfg.job_description
    questions := cfg.questions
    q_idx := 0
    latest_answer := none
    pending_followups := []
    last_prompt := none
    answers := []
    done := false }

/-- The follow-up prompt f-string of `node_evaluate_answer`
(`src/agents.py` line 100). -/
def followupText (m : String) : String :=
  "You didn’t mention “" ++ m ++ "”. Could you add details regarding " ++ m ++ "?"

/-- `node_ask_question` from `src/agents.py` lines 51–70: when not done,
pop the head of `pending_followups` as the prompt if any is queued,
otherwise ask the question at `q_idx`, or finish when `q_idx` is past the
end of the question list. -/
def node_ask_question (s : AgentState) : AgentState :=
  if s.done then s
  else
    match s.pending_followups with
    | p :: rest => { s with pending_followups := rest, last_prompt := some p }
    | [] =>
        if s.questions.length ≤ s.q_idx then
          { s with done := true, last_prompt := none }
        else
          { s with last_prompt := some ((s.questions.getD s.q_idx default).text) }

/-- `node_evaluate_answer` from `src/agents.py` lines 72–109: evaluate the
stripped latest answer against the question at `q_idx`, append one answer
snapshot, then either enqueue one follow-up per missing keyword or advance
`q_idx`, and reset `latest_answer`. -/
def node_evaluate_answer (s : AgentState) : AgentState :=
  if s.done then s
  else if s.questions.length ≤ s.q_idx then { s with done := true }
  else
    let latest := pyStrip (s.latest_answer.getD "")
    let q := s.questions.getD s.q_idx default
    let missing := find_missing_keywords latest q.required_keywords
    let rec1 : AnswerRecord :=
      { question_id := q.id, question := q.text, answer := latest,
        missing := missing, notes := q.guidance }
    let s1 := { s with answers := s.answers ++ [rec1] }
    let s2 :=
      if missing.isEmpty then { s1 with q_idx := s1.q_idx + 1 }
      else { s1 with pending_followups := s1.pending_followups ++ missing.map followupText }
    { s2 with latest_answer := none }

/-- `router` from `src/agents.py` lines 111–121, returning the edge labels
used by the graph. -/
def router (s : AgentState) : String :=
  if s.done then "end"
  else if !s.pending_followups.isEmpty then "ask"
  else if s.q_idx < s.questions.length then "ask"
  else "end"

/-- The single question of the end-to-end scenario of the specification. -/
def q1 : Question :=
  { id := "q1", text := "Describe your caching experience",
    required_keywords := ["redis", "ttl"], guidance := "" }

/-- One-question configuration for the end-to-end scenario. -/
def demoConfig : JobConfig := { job_description := "jd", questions := [q1] }

/-- Scenario step 0: freshly created session state. -/
def demo0 : AgentState := initial_state_from_config demoConfig

/-- Scenario step 1: the ask node emits the main question. -/
def demo1 : AgentState := node_ask_question demo0

/-- Scenario step 2: the UI stores the first (gapped) answer. -/
def demo2 : AgentState := { demo1 with latest_answer := some "I used Redis for sessions" }

/-- Scenario step 3: first evaluation — the gap `ttl` queues a follow-up. -/
def demo3 : AgentState := node_evaluate_answer demo2

/-- Scenario step 4: the ask node emits the queued follow-up. -/
def demo4 : AgentState := node_ask_question demo3

/-- Scenario step 5: the UI stores the second (resolving) answer. -/
def demo5 : AgentState := { demo4 with latest_answer := some "redis with ttl" }

/-- Scenario step 6: second evaluation — no gap, the question is resolved. -/
def demo6 : AgentState := node_evaluate_answer demo5

end Agents

/-- In-place update of the list element at index `i`, the functional
counterpart of mutating `state["llm_responses"][q_idx]`.  Out-of-range
indices leave the list unchanged. -/
def modifyAt {α : Type} : List α → Nat → (α → α) → List α
  | [], _, _ => []
  | x :: xs, 0, f => f x :: xs
  | x :: xs, n + 1, f => x :: modifyAt xs n f

namespace ScrAgents

/-- One entry of the `keywords` array of the judge JSON schema that
`Interviewer.node_evaluate_answer` asks the model to return. -/
structure KeywordEval where
  keyword : String
  status : String
  explanation : String
deriving Repr, DecidableEq

/-- The parsed judge response (`parsed = json.loads(llm_response.content)`):
the JSON schema of `src/scr/agents.py` lines 176–189.  Only `follow_up`
steers the control flow; the whole value is appended to the per-question
history. -/
structure Verdict where
  keywords : List KeywordEval
  overall_assessment : String
  score : String
  follow_up : String
deriving Repr, DecidableEq, Inhabited

/-- One element of `state["llm_responses"]`: the per-question response
tracker initialised at `src/scr/agents.py` lines 211–216. -/
structure QTrack where
  q_idx : Nat
  follow_up_count : Nat
  history : List Verdict
deriving Repr, DecidableEq, Inhabited

/-- One entry of `state["answers"]` as appended by
`Interviewer.node_evaluate_answer` (`src/scr/agents.py` lines 241–247):
unlike the keyword engine there is no `missing` field. -/
structure AnswerRecord where
  question_id : String
  question : String
  answer : String
  notes : String
deriving Repr, DecidableEq

/-- The module-level `JobConfig` dataclass of `src/scr/agents.py`
(lines 23–33), restricted to the fields the embedded nodes read: the job
description, the question list and `no_followup_chances`
(`int(config["number_of_followup_chances"])`, loaded once at import).  The
remaining dataclass fields hold initial-state constants never read back. -/
structure JobConfig where
  jd : String
  questions : List Agents.Question
  no_followup_chances : Nat
deriving Repr, DecidableEq

/-- The `AgentState` TypedDict of `src/scr/agents.py` lines 53–64. -/
structure AgentState where
  jd : String
  questions : List Agents.Question
  q_idx : Nat
  latest_answer : Option String
  pending_followups : List String
  last_prompt : Option String
  answers : List AnswerRecord
  llm_responses : List QTrack
  done : Bool
  report : String
  review : String
deriving Repr, DecidableEq

/-- `initial_state_from_config` from `src/scr/agents.py` lines 66–80 (the
function is defined twice with identical bodies; the `report` key is never
set, modelled as the empty string). -/
def initial_state_from_config (cfg : JobConfig) : AgentState :=
  { jd := cfg.jd
    questions := cfg.questions
    q_idx := 0
    latest_answer := none
    pending_followups := []
    last_prompt := none
    answers := []
    llm_responses := []
    done := false
    report := ""
    review := "" }

/-- `Interviewer.node_ask_question` from `src/scr/agents.py` lines 107–132.
The `await get_user_input(prompt)` suspension is modelled by passing the
user's `answer` as an argument; the prompt selection itself is pure:
pending follow-ups first, else the question at `q_idx`, else done. -/
def node_ask_question (s : AgentState) (answer : String) : AgentState :=
  if s.done then s
  else
    match s.pending_followups with
    | p :: rest =>
        { s with pending_followups := rest, latest_answer := some answer,
                 last_prompt := some p }
    | [] =>
        if s.questions.length ≤ s.q_idx then { s with done := true }
        else
          { s with latest_answer := some answer,
                   last_prompt := some ((s.questions.getD s.q_idx default).text) }

/-- The three values `Interviewer.node_evaluate_answer` formats into the
judge user prompt (`src/scr/agents.py` lines 196–199): the text of the
question at `q_idx`, that question's `required_keywords`, and the stripped
latest answer.  The follow-up prompt (`last_prompt`) is not among them. -/
def judgeInput (s : AgentState) : String × List String × String :=
  ((s.questions.getD s.q_idx default).text,
   (s.questions.getD s.q_idx default).required_keywords,
   pyStrip (s.latest_answer.getD ""))

/-- `Interviewer.node_evaluate_answer` from `src/scr/agents.py`
lines 134–250.  The network call is modelled by taking the parsed judge
response as the argument `parsed`.  After the guards, the node lazily
creates the tracker for `q_idx`, appends `parsed` to its history, and on a
non-empty stripped `follow_up` either increments the counter and enqueues
the follow-up (when the counter is below the module budget) or clears the
queue and advances `q_idx`; an empty `follow_up` advances `q_idx`.  One
answer record is appended at the end; `latest_answer` is not reset (the
reset is commented out in the source). -/
def node_evaluate_answer (cfg : JobConfig) (s : AgentState) (parsed : Verdict) : AgentState :=
  if s.done then s
  else if s.latest_answer.isNone then s
  else if s.questions.length ≤ s.q_idx then { s with done := true }
  else
    let latest := pyStrip (s.latest_answer.getD "")
    let q := s.questions.getD s.q_idx default
    let llm0 :=
      if s.llm_responses.length ≤ s.q_idx then
        s.llm_responses ++ [{ q_idx := s.q_idx, follow_up_count := 0, history := [] }]
      else s.llm_responses
    let llm1 := modifyAt llm0 s.q_idx (fun t => { t with history := t.history ++ [parsed] })
    let follow_up := pyStrip parsed.follow_up
    let s1 := { s with llm_responses := llm1 }
    let s2 :=
      if follow_up ≠ "" then
        if (llm1.getD s.q_idx default).follow_up_count < cfg.no_followup_chances then
          { s1 with
              llm_responses := modifyAt llm1 s.q_idx
                (fun t => { t with follow_up_count := t.follow_up_count + 1 })
              pending_followups := s1.pending_followups ++ [follow_up] }
        else
          { s1 with pending_followups := [], q_idx := s.q_idx + 1 }
      else { s1 with q_idx := s.q_idx + 1 }
    let snap : AnswerRecord :=
      { question_id := q.id, question := q.text, answer := latest, notes := q.guidance }
    { s2 with answers := s2.answers ++ [snap] }

/-- `Interviewer.router` from `src/scr/agents.py` lines 404–411. -/
def router (s : AgentState) : String :=
  if s.done then "review"
  else "ask"

/-- Every state the compiled graph can reach in one session: the initial
state, followed by any interleaving of the ask node (with an arbitrary user
answer) and the evaluate node (with an arbitrary judge verdict). -/
inductive Reachable (cfg : JobConfig) : AgentState → Prop
  | init : Reachable cfg (initial_state_from_config cfg)
  | ask (s : AgentState) (a : String) :
      Reachable cfg s → Reachable cfg (node_ask_question s a)
  | eval (s : AgentState) (v : Verdict) :
      Reachable cfg s → Reachable cfg (node_evaluate_answer cfg s v)

/-- Every tracked per-question follow-up counter is within the module
budget. -/
def countsBounded (cfg : JobConfig) (s : AgentState) : Prop :=
  ∀ t ∈ s.llm_responses, t.follow_up_count ≤ cfg.no_followup_chances

end ScrAgents

namespace ScrApp

/-- One entry of the `SESSIONS` dict of `src/scr/app.py`, restricted to the
fields `send_answer` touches.  `current_future` models the session's
outstanding asyncio future: `none` when no ask node is awaiting an answer,
`some b` when a waiter exists whose `done()` flag is `b`. -/
structure Session where
  state : ScrAgents.AgentState
  pending_prompts : List String
  current_future : Option Bool
  done : Bool
  last_error : Option String
deriving Repr, DecidableEq

/-- What the delivery part of `send_answer` does with the incoming answer
before entering its polling loop. -/
inductive SendOutcome where
  | sessionNotFound
  | sessionError (msg : String)
  | delivered
  | dropped
  | buffered
deriving Repr, DecidableEq

/-- The synchronous delivery decision of `send_answer`
(`src/scr/app.py` lines 181–203): unknown session ids and sessions in
error are reported; when a future is awaiting, its result is set to the
user's text (unless the future is already done, in which case the text is
dropped); when no future is awaiting, the text is written straight into
`sess["state"]["latest_answer"]`.  The subsequent polling loop for the
next prompt is asynchronous glue and is not modelled. -/
def send_answer (sess : Option Session) (user_text : String) : SendOutcome × Option Session :=
  match sess with
  | none => (SendOutcome.sessionNotFound, none)
  | some sess =>
      match sess.last_error with
      | some e => (SendOutcome.sessionError e, some sess)
      | none =>
          match sess.current_future with
          | none =>
              (SendOutcome.buffered,
               some { sess with
                        state := { sess.state with latest_answer := some user_text } })
          | some isDone =>
              if isDone then (SendOutcome.dropped, some sess)
              else (SendOutcome.delivered, some { sess with current_future := some true })

/-- A live session that has already produced and consumed its first prompt
and has no outstanding waiter: the grace window before the first prompt is
over. -/
def liveSession : Session :=
  { state :=
      { ScrAgents.initial_state_from_config
          { jd := "jd", questions := [Agents.q1], no_followup_chances := 1 } with
        last_prompt := some Agents.q1.text }
    pending_prompts := []
    current_future := none
    done := false
    last_error := none }

end ScrApp

/-- On the uppercase ASCII range `lowerChar` shifts the code point by 32. -/
theorem toNat_lowerChar_of (c : Char) (h : 65 ≤ c.toNat ∧ c.toNat ≤ 90) :
    (lowerChar c).toNat = c.toNat + 32 := by
  unfold lowerChar
  rw [if_pos h]
  have hv : (c.toNat + 32).isValidChar := by
    left
    omega
  simp [Char.ofNat, hv]
  rfl

/-- Python lowering is idempotent on characters. -/
theorem lowerChar_idem (c : Char) : lowerChar (lowerChar c) = lowerChar c := by
  by_cases h : 65 ≤ c.toNat ∧ c.toNat ≤ 90
  · have ht := toNat_lowerChar_of c h
    unfold lowerChar
    rw [if_pos h]
    rw [if_neg]
    unfold lowerChar at ht
    rw [if_pos h] at ht
    omega
  · have hc : lowerChar c = c := by
      unfold lowerChar
      rw [if_neg h]
    rw [hc, hc]

/-- Python lowering is idempotent on strings. -/
theorem lowerStr_idem (s : String) : lowerStr (lowerStr s) = lowerStr s := by
  unfold lowerStr
  congr 1
  rw [List.map_map]
  exact List.map_congr_left (fun c _ => lowerChar_idem c)

/-- The collection loop of `find_missing_keywords` is a filter of the
keywords whose pattern has no match. -/
theorem missingLoop_eq_filter (a : String) (l : List String) :
    missingLoop a l = l.filter (fun kw => !kwFound a kw) := by
  induction l with
  | nil => rfl
  | cons kw rest ih =>
      unfold missingLoop
      by_cases h : kwFound a kw
      · simp [h, ih]
      · simp [h, ih]

/-- `find_missing_keywords` filters the required list against the lowered
answer (the early return for an empty list coincides with the filter). -/
theorem find_missing_keywords_eq_filter (answer : String) (required : List String) :
    find_missing_keywords answer required =
      required.filter (fun kw => !kwFound (lowerStr answer) kw) := by
  unfold find_missing_keywords
  cases required with
  | nil => rfl
  | cons kw rest => simp [missingLoop_eq_filter]

/-- C1: for every answer string and every required-keyword list,
`find_missing_keywords` returns exactly the required keywords whose tolerant
whole-token pattern finds no match in the answer, preserving the input
order (the result is a sublist of the input); matching is performed on the
lowered answer, hence case-insensitive; the concrete whole-token and
separator-equivalence examples hold.  The embedding is a total Lean
function, so determinism, totality and absence of side effects are
immediate. -/
theorem c1_find_missing_keywords_correct :
    (∀ answer required, List.Sublist (find_missing_keywords answer required) required) ∧
    (∀ answer required kw,
        kw ∈ find_missing_keywords answer required ↔
          kw ∈ required ∧ kwFound (lowerStr answer) kw = false) ∧
    (∀ answer required,
        find_missing_keywords answer required =
          find_missing_keywords (lowerStr answer) required) ∧
    find_missing_keywords "categorized" ["cat"] = ["cat"] ∧
    find_missing_keywords "I used Redis-cache" ["redis cache"] = [] := by
  refine ⟨?_, ?_, ?_, by decide, by decide⟩
  · intro answer required
    rw [find_missing_keywords_eq_filter]
    exact List.filter_sublist required
  · intro answer required kw
    rw [find_missing_keywords_eq_filter]
    simp [List.mem_filter]
  · intro answer required
    rw [find_missing_keywords_eq_filter, find_missing_keywords_eq_filter,
      lowerStr_idem]

/-- C9: the done flag is absorbing: from any state with `done = true`, both
the ask node and the evaluate node of both engine variants return the state
unchanged — no prompt is produced, no answer is recorded, `q_idx` and
`answers` are untouched — and consequently no node ever resets `done` to
false once it has been set. -/
theorem c9_done_absorbing :
    (∀ s : Agents.AgentState, s.done = true →
        Agents.node_ask_question s = s ∧ Agents.node_evaluate_answer s = s) ∧
    (∀ (cfg : ScrAgents.JobConfig) (s : ScrAgents.AgentState) (a : String)
        (v : ScrAgents.Verdict), s.done = true →
        ScrAgents.node_ask_question s a = s ∧
          ScrAgents.node_evaluate_answer cfg s v = s) := by
  constructor
  · intro s h
    constructor
    · simp [Agents.node_ask_question, h]
    · simp [Agents.node_evaluate_answer, h]
  · intro cfg s a v h
    constructor
    · simp [ScrAgents.node_ask_question, h]
    · simp [ScrAgents.node_evaluate_answer, h]

/-- Witness for C9 at concrete completed states of both variants. -/
theorem c9_done_absorbing_witness :
    ({ Agents.demo6 with done := true } : Agents.AgentState).done = true ∧
    Agents.node_ask_question { Agents.demo6 with done := true } =
      { Agents.demo6 with done := true } ∧
    ScrAgents.node_ask_question
      { ScrAgents.initial_state_from_config
          { jd := "jd", questions := [Agents.q1], no_followup_chances := 1 } with
        done := true } "late answer" =
      { ScrAgents.initial_state_from_config
          { jd := "jd", questions := [Agents.q1], no_followup_chances := 1 } with
        done := true } :=
  ⟨by decide,
   (c9_done_absorbing.1 { Agents.demo6 with done := true } (by decide)).1,
   (c9_done_absorbing.2
      { jd := "jd", questions := [Agents.q1], no_followup_chances := 1 }
      { ScrAgents.initial_state_from_config
          { jd := "jd", questions := [Agents.q1], no_followup_chances := 1 } with
        done := true }
      "late answer" default (by decide)).1⟩

/-- C6: `q_idx` is monotonically non-decreasing: in both engine variants
the ask node never changes `q_idx`, and the evaluate node either leaves it
unchanged or increments it by exactly 1; no node decreases it. -/
theorem c6_q_idx_monotone :
    (∀ s : Agents.AgentState, (Agents.node_ask_question s).q_idx = s.q_idx) ∧
    (∀ s : Agents.AgentState,
        (Agents.node_evaluate_answer s).q_idx = s.q_idx ∨
        (Agents.node_evaluate_answer s).q_idx = s.q_idx + 1) ∧
    (∀ (s : ScrAgents.AgentState) (a : String),
        (ScrAgents.node_ask_question s a).q_idx = s.q_idx) ∧
    (∀ (cfg : ScrAgents.JobConfig) (s : ScrAgents.AgentState) (v : ScrAgents.Verdict),
        (ScrAgents.node_evaluate_answer cfg s v).q_idx = s.q_idx ∨
        (ScrAgents.node_evaluate_answer cfg s v).q_idx = s.q_idx + 1) := by
  refine ⟨?_, ?_, ?_, ?_⟩
  · intro s
    unfold Agents.node_ask_question
    split
    · rfl
    · cases s.pending_followups
      all_goals simp
      all_goals split
      all_goals rfl
  · intro s
    unfold Agents.node_evaluate_answer
    dsimp only
    repeat' split
    all_goals simp
  · intro s a
    unfold ScrAgents.node_ask_question
    split
    · rfl
    · cases s.pending_followups
      all_goals simp
      all_goals split
      all_goals rfl
  · intro cfg s v
    unfold ScrAgents.node_evaluate_answer
    dsimp only
    repeat' split
    all_goals simp

/-- C4: next-prompt selection from a non-done state, in both engine
variants: a non-empty `pending_followups` queue is dequeued at its head
(FIFO) and the head becomes the prompt; otherwise the question at `q_idx`
is the prompt when one remains; otherwise the session transitions to its
terminal phase with no prompt.  Evaluation appends newly generated
follow-ups at the tail of the queue, so queued follow-ups are asked before
the next main question and in generation order. -/
theorem c4_prompt_selection :
    (∀ (s : Agents.AgentState) (p : String) (rest : List String),
        s.done = false → s.pending_followups = p :: rest →
        Agents.node_ask_question s =
          { s with pending_followups := rest, last_prompt := some p }) ∧
    (∀ s : Agents.AgentState, s.done = false → s.pending_followups = [] →
        s.q_idx < s.questions.length →
        Agents.node_ask_question s =
          { s with last_prompt := some ((s.questions.getD s.q_idx default).text) }) ∧
    (∀ s : Agents.AgentState, s.done = false → s.pending_followups = [] →
        s.questions.length ≤ s.q_idx →
        Agents.node_ask_question s = { s with done := true, last_prompt := none }) ∧
    (∀ s : Agents.AgentState, s.done = false → s.q_idx < s.questions.length →
        (Agents.node_evaluate_answer s).pending_followups =
          s.pending_followups ++
            (find_missing_keywords (pyStrip (s.latest_answer.getD ""))
              (s.questions.getD s.q_idx default).required_keywords).map
              Agents.followupText) ∧
    (∀ (s : ScrAgents.AgentState) (a p : String) (rest : List String),
        s.done = false → s.pending_followups = p :: rest →
        ScrAgents.node_ask_question s a =
          { s with pending_followups := rest, latest_answer := some a,
                   last_prompt := some p }) ∧
    (∀ (s : ScrAgents.AgentState) (a : String),
        s.done = false → s.pending_followups = [] →
        s.q_idx < s.questions.length →
        ScrAgents.node_ask_question s a =
          { s with latest_answer := some a,
                   last_prompt := some ((s.questions.getD s.q_idx default).text) }) ∧
    (∀ (s : ScrAgents.AgentState) (a : String),
        s.done = false → s.pending_followups = [] →
        s.questions.length ≤ s.q_idx →
        ScrAgents.node_ask_question s a = { s with done := true }) := by
  refine ⟨?_, ?_, ?_, ?_, ?_, ?_, ?_⟩
  · intro s p rest hd hp
    simp [Agents.node_ask_question, hd, hp]
  · intro s hd hp hq
    simp [Agents.node_ask_question, hd, hp, Nat.not_le.mpr hq]
  · intro s hd hp hq
    simp [Agents.node_ask_question, hd, hp, hq]
  · intro s hd hq
    unfold Agents.node_evaluate_answer
    dsimp only
    rw [if_neg (by simp [hd]), if_neg (Nat.not_le.mpr hq)]
    split
    · next hempty =>
        rw [List.isEmpty_iff] at hempty
        simp only [List.getD_eq_getElem?_getD] at hempty
        simp [hempty]
    · rfl
  · intro s a p rest hd hp
    simp [ScrAgents.node_ask_question, hd, hp]
  · intro s a hd hp hq
    simp [ScrAgents.node_ask_question, hd, hp, Nat.not_le.mpr hq]
  · intro s a hd hp hq
    simp [ScrAgents.node_ask_question, hd, hp, hq]

/-- Witness for C4: the scenario state with one queued follow-up dequeues
exactly that follow-up, and the fresh scenario state asks the main
question. -/
theorem c4_prompt_selection_witness :
    Agents.node_ask_question Agents.demo3 =
      { Agents.demo3 with pending_followups := [],
                          last_prompt := some (Agents.followupText "ttl") } ∧
    Agents.node_ask_question Agents.demo0 =
      { Agents.demo0 with last_prompt := some Agents.q1.text } :=
  ⟨c4_prompt_selection.1 Agents.demo3 (Agents.followupText "ttl") []
      (by decide) (by decide),
   by
    have h := c4_prompt_selection.2.1 Agents.demo0 (by decide) (by decide) (by decide)
    simpa using h⟩

/-- C5: evaluation always targets the question at the current `q_idx` with
its full required-keyword set, never the prompt just answered: in the
keyword engine the appended record's gap list is computed from the current
question's whole `required_keywords`, and `node_evaluate_answer` commutes
with any change of `last_prompt`; in the LLM engine the data formatted
into the judge prompt is exactly (current question text, its full required
keywords, stripped latest answer), independent of `last_prompt`, and the
evaluate node likewise commutes with any change of `last_prompt`. -/
theorem c5_evaluation_targets_current_question :
    (∀ (s : Agents.AgentState) (p : Option String),
        Agents.node_evaluate_answer { s with last_prompt := p } =
          { Agents.node_evaluate_answer s with last_prompt := p }) ∧
    (∀ s : Agents.AgentState, s.done = false → s.q_idx < s.questions.length →
        ∃ rec : Agents.AnswerRecord,
          (Agents.node_evaluate_answer s).answers = s.answers ++ [rec] ∧
          rec.question_id = (s.questions.getD s.q_idx default).id ∧
          rec.missing = find_missing_keywords (pyStrip (s.latest_answer.getD ""))
              (s.questions.getD s.q_idx default).required_keywords) ∧
    (∀ (s : ScrAgents.AgentState) (p : Option String),
        ScrAgents.judgeInput { s with last_prompt := p } = ScrAgents.judgeInput s) ∧
    (∀ (cfg : ScrAgents.JobConfig) (s : ScrAgents.AgentState) (v : ScrAgents.Verdict)
        (p : Option String),
        ScrAgents.node_evaluate_answer cfg { s with last_prompt := p } v =
          { ScrAgents.node_evaluate_answer cfg s v with last_prompt := p }) := by
  refine ⟨?_, ?_, ?_, ?_⟩
  · intro s p
    unfold Agents.node_evaluate_answer
    dsimp only
    repeat' split
    all_goals rfl
  · intro s hd hq
    unfold Agents.node_evaluate_answer
    dsimp only
    rw [if_neg (by simp [hd]), if_neg (Nat.not_le.mpr hq)]
    refine ⟨{ question_id := (s.questions.getD s.q_idx default).id,
              question := (s.questions.getD s.q_idx default).text,
              answer := pyStrip (s.latest_answer.getD ""),
              missing := find_missing_keywords (pyStrip (s.latest_answer.getD ""))
                  (s.questions.getD s.q_idx default).required_keywords,
              notes := (s.questions.getD s.q_idx default).guidance }, ?_, rfl, rfl⟩
    split
    · rfl
    · rfl
  · intro s p
    rfl
  · intro cfg s v p
    unfold ScrAgents.node_evaluate_answer
    dsimp only
    repeat' split
    all_goals rfl

/-- Witness for C5: at the scenario state holding the first answer, the
appended record carries the gap list of the main question. -/
theorem c5_evaluation_targets_current_question_witness :
    ∃ rec : Agents.AnswerRecord,
      (Agents.node_evaluate_answer Agents.demo2).answers = Agents.demo2.answers ++ [rec] ∧
      rec.question_id = (Agents.demo2.questions.getD Agents.demo2.q_idx default).id ∧
      rec.missing = find_missing_keywords (pyStrip (Agents.demo2.latest_answer.getD ""))
          (Agents.demo2.questions.getD Agents.demo2.q_idx default).required_keywords :=
  c5_evaluation_targets_current_question.2.1 Agents.demo2 (by decide) (by decide)

/-- C2 counterexample: in the one-question scenario — first answer leaves
the gap `ttl`, second answer resolves it — the answers log of the reached
state holds TWO records for question `q1` (one per evaluation), not
exactly one appended by the last evaluation: `node_evaluate_answer`
appends a snapshot on every evaluation (`src/agents.py` lines 87–96). -/
theorem c2_single_record_counterexample :
    Agents.demo6.answers.map (fun r => r.question_id) = ["q1", "q1"] ∧
    Agents.demo6.answers.map (fun r => r.answer) =
      ["I used Redis for sessions", "redis with ttl"] ∧
    Agents.demo6.q_idx = 1 := by
  refine ⟨?_, ?_, ?_⟩ <;> decide

/-- C2 amended: an `AnsweredRecord` is appended by EVERY evaluation of a
submitted answer (not only by the last evaluation for its question), so
the answers log may hold several records per distinct question id; in the
one-question scenario with `max_followup_chances = 1` where the first
answer leaves a gap and the second resolves it, the log ends with two
records for that question, the last holding the second (final resolving)
answer text. -/
theorem c2_amended_append_every_evaluation :
    (∀ s : Agents.AgentState, s.done = false → s.q_idx < s.questions.length →
        ∃ rec : Agents.AnswerRecord,
          (Agents.node_evaluate_answer s).answers = s.answers ++ [rec] ∧
          rec.question_id = (s.questions.getD s.q_idx default).id ∧
          rec.answer = pyStrip (s.latest_answer.getD "")) ∧
    Agents.demo6.answers.map (fun r => r.question_id) = ["q1", "q1"] ∧
    (Agents.demo6.answers.getLast?.map (fun r => r.answer)) = some "redis with ttl" := by
  refine ⟨?_, by decide, by decide⟩
  intro s hd hq
  unfold Agents.node_evaluate_answer
  dsimp only
  rw [if_neg (by simp [hd]), if_neg (Nat.not_le.mpr hq)]
  refine ⟨{ question_id := (s.questions.getD s.q_idx default).id,
            question := (s.questions.getD s.q_idx default).text,
            answer := pyStrip (s.latest_answer.getD ""),
            missing := find_missing_keywords (pyStrip (s.latest_answer.getD ""))
                (s.questions.getD s.q_idx default).required_keywords,
            notes := (s.questions.getD s.q_idx default).guidance }, ?_, rfl, rfl⟩
  split
  · rfl
  · rfl

/-- Witness for C2 (amended) at the scenario state holding the second
answer: the second evaluation appends one more record for `q1`. -/
theorem c2_amended_append_every_evaluation_witness :
    Agents.demo5.done = false ∧
    Agents.demo5.q_idx < Agents.demo5.questions.length ∧
    ∃ rec : Agents.AnswerRecord,
      (Agents.node_evaluate_answer Agents.demo5).answers = Agents.demo5.answers ++ [rec] ∧
      rec.question_id = (Agents.demo5.questions.getD Agents.demo5.q_idx default).id ∧
      rec.answer = pyStrip (Agents.demo5.latest_answer.getD "") :=
  ⟨by decide, by decide,
   c2_amended_append_every_evaluation.1 Agents.demo5 (by decide) (by decide)⟩

/-- Elements of `modifyAt l i f` are elements of `l`, except possibly the
image under `f` of the element at `i`. -/
theorem mem_modifyAt_or {α : Type} (l : List α) (i : Nat) (f : α → α) :
    ∀ x ∈ modifyAt l i f, x ∈ l ∨ ∃ h : i < l.length, x = f (l.get ⟨i, h⟩) := by
  induction l generalizing i with
  | nil => intro x hx; cases hx
  | cons y ys ih =>
      intro x hx
      cases i with
      | zero =>
          rcases List.mem_cons.mp hx with h | h
          · exact Or.inr ⟨Nat.succ_pos _, h⟩
          · exact Or.inl (List.mem_cons_of_mem y h)
      | succ n =>
          rcases List.mem_cons.mp hx with h | h
          · exact Or.inl (h ▸ List.mem_cons_self y ys)
          · rcases ih n x h with h2 | ⟨hn, h2⟩
            · exact Or.inl (List.mem_cons_of_mem y h2)
            · exact Or.inr ⟨Nat.succ_lt_succ hn, h2⟩

/-- `getD` of an in-range index through `modifyAt` at that index. -/
theorem modifyAt_getD {α : Type} (l : List α) (i : Nat) (f : α → α) (d : α)
    (h : i < l.length) :
    (modifyAt l i f).getD i d = f (l.getD i d) := by
  induction l generalizing i with
  | nil => cases h
  | cons y ys ih =>
      cases i with
      | zero => rfl
      | succ n => exact ih n (Nat.lt_of_succ_lt_succ h)

/-- `getD` at an in-range index is `get`. -/
theorem getD_eq_get {α : Type} (l : List α) (i : Nat) (d : α) (h : i < l.length) :
    l.getD i d = l.get ⟨i, h⟩ := by
  simp [List.getD_eq_getElem?_getD, List.getElem?_eq_getElem h]

/-- C7: when an evaluation of the LLM engine finds a remaining gap (the
judge returned a non-empty follow-up) but the follow-up counter of the
current question is already exhausted, the `pending_followups` queue is
cleared — assigned the empty list, not merely drained — and `q_idx`
advances by 1, so no stale queued follow-up survives exhaustion. -/
theorem c7_exhaustion_clears_queue
    (cfg : ScrAgents.JobConfig) (s : ScrAgents.AgentState) (v : ScrAgents.Verdict)
    (hd : s.done = false) (hl : s.latest_answer.isSome = true)
    (hq : s.q_idx < s.questions.length)
    (ht : s.q_idx < s.llm_responses.length)
    (hf : pyStrip v.follow_up ≠ "")
    (hc : cfg.no_followup_chances ≤
        (s.llm_responses.getD s.q_idx default).follow_up_count) :
    (ScrAgents.node_evaluate_answer cfg s v).pending_followups = [] ∧
    (ScrAgents.node_evaluate_answer cfg s v).q_idx = s.q_idx + 1 := by
  unfold ScrAgents.node_evaluate_answer
  dsimp only
  rw [if_neg (by simp [hd]),
    if_neg (by simp [Option.isNone_iff_eq_none]; intro h; rw [h] at hl; cases hl),
    if_neg (Nat.not_le.mpr hq), if_neg (Nat.not_le.mpr ht), if_pos hf, if_neg]
  · exact ⟨rfl, rfl⟩
  · rw [modifyAt_getD _ _ _ _ ht]
    exact Nat.not_lt.mpr hc

/-- Witness for C7 at a concrete exhausted state: the queue holding a stale
follow-up is wiped and the session moves to the next question. -/
theorem c7_exhaustion_clears_queue_witness :
    (ScrAgents.node_evaluate_answer
      { jd := "jd", questions := [Agents.q1], no_followup_chances := 1 }
      { jd := "jd", questions := [Agents.q1], q_idx := 0,
        latest_answer := some "still no ttl",
        pending_followups := ["stale follow-up"], last_prompt := some "p",
        answers := [], llm_responses := [{ q_idx := 0, follow_up_count := 1, history := [] }],
        done := false, report := "", review := "" }
      { keywords := [], overall_assessment := "", score := "",
        follow_up := "what about ttl?" }).pending_followups = [] ∧
    (ScrAgents.node_evaluate_answer
      { jd := "jd", questions := [Agents.q1], no_followup_chances := 1 }
      { jd := "jd", questions := [Agents.q1], q_idx := 0,
        latest_answer := some "still no ttl",
        pending_followups := ["stale follow-up"], last_prompt := some "p",
        answers := [], llm_responses := [{ q_idx := 0, follow_up_count := 1, history := [] }],
        done := false, report := "", review := "" }
      { keywords := [], overall_assessment := "", score := "",
        follow_up := "what about ttl?" }).q_idx = 0 + 1 :=
  c7_exhaustion_clears_queue
    { jd := "jd", questions := [Agents.q1], no_followup_chances := 1 }
    { jd := "jd", questions := [Agents.q1], q_idx := 0,
      latest_answer := some "still no ttl",
      pending_followups := ["stale follow-up"], last_prompt := some "p",
      answers := [], llm_responses := [{ q_idx := 0, follow_up_count := 1, history := [] }],
      done := false, report := "", review := "" }
    { keywords := [], overall_assessment := "", score := "",
      follow_up := "what about ttl?" }
    (by decide) (by decide) (by decide) (by decide) (by decide) (by decide)

/-- During a gap evaluation of the LLM engine, `q_idx` stays put (a
follow-up is enqueued) precisely when the tracked counter of the current
question is below the module-level budget `cfg.no_followup_chances`. -/
theorem scr_eval_advance_iff
    (cfg : ScrAgents.JobConfig) (s : ScrAgents.AgentState) (v : ScrAgents.Verdict)
    (hd : s.done = false) (hl : s.latest_answer.isSome = true)
    (hq : s.q_idx < s.questions.length)
    (ht : s.q_idx < s.llm_responses.length)
    (hf : pyStrip v.follow_up ≠ "") :
    ((ScrAgents.node_evaluate_answer cfg s v).q_idx = s.q_idx ↔
      (s.llm_responses.getD s.q_idx default).follow_up_count <
        cfg.no_followup_chances) := by
  unfold ScrAgents.node_evaluate_answer
  dsimp only
  rw [if_neg (by simp [hd]),
    if_neg (by simp [Option.isNone_iff_eq_none]; intro h; rw [h] at hl; cases hl),
    if_neg (Nat.not_le.mpr hq), if_neg (Nat.not_le.mpr ht), if_pos hf,
    modifyAt_getD _ _ _ _ ht]
  split
  · next h => exact iff_of_true rfl (by simpa using h)
  · next h => exact iff_of_false (by dsimp only; omega) (by simpa using h)

/-- C10: the follow-up budget consulted during evaluation is the
module-level configuration value, not a field of the session state: the
decision to enqueue (keep `q_idx`) versus advance depends only on the
tracked counter and `cfg.no_followup_chances`, so any two session states
with equal counters for their current questions — whatever else they
contain — receive the same enqueue-versus-advance decision, one shared
process-wide budget for all sessions. -/
theorem c10_budget_is_module_config :
    (∀ (cfg : ScrAgents.JobConfig) (s : ScrAgents.AgentState) (v : ScrAgents.Verdict),
        s.done = false → s.latest_answer.isSome = true →
        s.q_idx < s.questions.length → s.q_idx < s.llm_responses.length →
        pyStrip v.follow_up ≠ "" →
        ((ScrAgents.node_evaluate_answer cfg s v).q_idx = s.q_idx ↔
          (s.llm_responses.getD s.q_idx default).follow_up_count <
            cfg.no_followup_chances)) ∧
    (∀ (cfg : ScrAgents.JobConfig) (s1 s2 : ScrAgents.AgentState)
        (v1 v2 : ScrAgents.Verdict),
        s1.done = false → s1.latest_answer.isSome = true →
        s1.q_idx < s1.questions.length → s1.q_idx < s1.llm_responses.length →
        pyStrip v1.follow_up ≠ "" →
        s2.done = false → s2.latest_answer.isSome = true →
        s2.q_idx < s2.questions.length → s2.q_idx < s2.llm_responses.length →
        pyStrip v2.follow_up ≠ "" →
        (s1.llm_responses.getD s1.q_idx default).follow_up_count =
          (s2.llm_responses.getD s2.q_idx default).follow_up_count →
        ((ScrAgents.node_evaluate_answer cfg s1 v1).q_idx = s1.q_idx ↔
          (ScrAgents.node_evaluate_answer cfg s2 v2).q_idx = s2.q_idx)) := by
  constructor
  · intro cfg s v hd hl hq ht hf
    exact scr_eval_advance_iff cfg s v hd hl hq ht hf
  · intro cfg s1 s2 v1 v2 hd1 hl1 hq1 ht1 hf1 hd2 hl2 hq2 ht2 hf2 hcount
    rw [scr_eval_advance_iff cfg s1 v1 hd1 hl1 hq1 ht1 hf1,
      scr_eval_advance_iff cfg s2 v2 hd2 hl2 hq2 ht2 hf2, hcount]

/-- Witness for C10: two different sessions with equal counters receive
the same decision. -/
theorem c10_budget_is_module_config_witness :
    (ScrAgents.node_evaluate_answer
      { jd := "jd", questions := [Agents.q1], no_followup_chances := 2 }
      { jd := "jd", questions := [Agents.q1], q_idx := 0,
        latest_answer := some "a", pending_followups := [],
        last_prompt := some "p", answers := [],
        llm_responses := [{ q_idx := 0, follow_up_count := 1, history := [] }],
        done := false, report := "", review := "" }
      { keywords := [], overall_assessment := "", score := "",
        follow_up := "more?" }).q_idx = 0 ↔
    (ScrAgents.node_evaluate_answer
      { jd := "jd", questions := [Agents.q1], no_followup_chances := 2 }
      { jd := "other jd", questions := [Agents.q1, Agents.q1], q_idx := 1,
        latest_answer := some "b", pending_followups := ["x"],
        last_prompt := some "q", answers := [],
        llm_responses := [{ q_idx := 0, follow_up_count := 2, history := [] },
                          { q_idx := 1, follow_up_count := 1, history := [] }],
        done := false, report := "", review := "" }
      { keywords := [], overall_assessment := "", score := "",
        follow_up := "and?" }).q_idx = 1 :=
  c10_budget_is_module_config.2
    { jd := "jd", questions := [Agents.q1], no_followup_chances := 2 }
    { jd := "jd", questions := [Agents.q1], q_idx := 0,
      latest_answer := some "a", pending_followups := [],
      last_prompt := some "p", answers := [],
      llm_responses := [{ q_idx := 0, follow_up_count := 1, history := [] }],
      done := false, report := "", review := "" }
    { jd := "other jd", questions := [Agents.q1, Agents.q1], q_idx := 1,
      latest_answer := some "b", pending_followups := ["x"],
      last_prompt := some "q", answers := [],
      llm_responses := [{ q_idx := 0, follow_up_count := 2, history := [] },
                        { q_idx := 1, follow_up_count := 1, history := [] }],
      done := false, report := "", review := "" }
    { keywords := [], overall_assessment := "", score := "", follow_up := "more?" }
    { keywords := [], overall_assessment := "", score := "", follow_up := "and?" }
    (by decide) (by decide) (by decide) (by decide) (by decide)
    (by decide) (by decide) (by decide) (by decide) (by decide) (by decide)

/-- C8 counterexample: on a live session whose first prompt has long been
produced and consumed and with no outstanding waiter, `send_answer` does
not reject the delivery as a usage error — it silently writes the answer
into the session state, and a second such delivery is buffered again,
overwriting the first (`src/scr/app.py` lines 181–203 have no
`NoPendingQuestion` path at all). -/
theorem c8_no_pending_question_counterexample :
    (ScrApp.send_answer (some ScrApp.liveSession) "too early one").1 =
      ScrApp.SendOutcome.buffered ∧
    ((ScrApp.send_answer (some ScrApp.liveSession) "too early one").2.bind
        (fun sess => sess.state.latest_answer)) = some "too early one" ∧
    (ScrApp.send_answer
        ((ScrApp.send_answer (some ScrApp.liveSession) "too early one").2)
        "too early two").1 = ScrApp.SendOutcome.buffered ∧
    ((ScrApp.send_answer
        ((ScrApp.send_answer (some ScrApp.liveSession) "too early one").2)
        "too early two").2.bind
        (fun sess => sess.state.latest_answer)) = some "too early two" := by
  refine ⟨?_, ?_, ?_, ?_⟩ <;> rfl

/-- C8 amended: delivering an answer while no waiter is outstanding is
never rejected: whenever the session exists and is not in error,
`send_answer` writes the text straight into the session state's
`latest_answer` (silently buffered), at any point of the session and with
each new early answer overwriting the previous one; the only delivery-time
rejections are an unknown session id and a session already in error. -/
theorem c8_amended_silent_buffering :
    (∀ (sess : ScrApp.Session) (t : String),
        sess.last_error = none → sess.current_future = none →
        ScrApp.send_answer (some sess) t =
          (ScrApp.SendOutcome.buffered,
           some { sess with state := { sess.state with latest_answer := some t } })) ∧
    (∀ t : String,
        ScrApp.send_answer none t = (ScrApp.SendOutcome.sessionNotFound, none)) ∧
    (∀ (sess : ScrApp.Session) (t : String) (e : String),
        sess.last_error = some e →
        ScrApp.send_answer (some sess) t =
          (ScrApp.SendOutcome.sessionError e, some sess)) := by
  refine ⟨?_, ?_, ?_⟩
  · intro sess t he hf
    simp [ScrApp.send_answer, he, hf]
  · intro t
    rfl
  · intro sess t e he
    simp [ScrApp.send_answer, he]

/-- Witness for C8 (amended): a concrete live session buffers silently. -/
theorem c8_amended_silent_buffering_witness :
    ScrApp.send_answer (some ScrApp.liveSession) "hello" =
      (ScrApp.SendOutcome.buffered,
       some { ScrApp.liveSession with
                state := { ScrApp.liveSession.state with
                             latest_answer := some "hello" } }) :=
  c8_amended_silent_buffering.1 ScrApp.liveSession "hello" rfl rfl

/-- The ask node never touches the per-question response trackers. -/
theorem scr_ask_llm_responses (s : ScrAgents.AgentState) (a : String) :
    (ScrAgents.node_ask_question s a).llm_responses = s.llm_responses := by
  unfold ScrAgents.node_ask_question
  repeat' split
  all_goals rfl

/-- Appending a fresh tracker (counter 0) preserves the counter bound. -/
theorem qtrack_bounded_new (n i : Nat) (l : List ScrAgents.QTrack)
    (hb : ∀ t ∈ l, t.follow_up_count ≤ n) :
    ∀ t ∈ l ++ [({ q_idx := i, follow_up_count := 0, history := [] } : ScrAgents.QTrack)],
      t.follow_up_count ≤ n := by
  intro t ht
  rcases List.mem_append.mp ht with h | h
  · exact hb t h
  · simp at h
    subst h
    exact Nat.zero_le n

/-- Appending a verdict to one tracker's history preserves the counter
bound. -/
theorem qtrack_bounded_hist (n q : Nat) (l : List ScrAgents.QTrack) (v : ScrAgents.Verdict)
    (hb : ∀ t ∈ l, t.follow_up_count ≤ n) :
    ∀ t ∈ modifyAt l q (fun t => { t with history := t.history ++ [v] }),
      t.follow_up_count ≤ n := by
  intro t ht
  rcases mem_modifyAt_or _ _ _ t ht with h | ⟨hq, h⟩
  · exact hb t h
  · subst h
    show (l.get ⟨q, hq⟩).follow_up_count ≤ n
    exact hb _ (l.get_mem _ _)

/-- Incrementing a tracker's counter that is strictly below the bound
preserves the counter bound. -/
theorem qtrack_bounded_inc (n q : Nat) (l : List ScrAgents.QTrack)
    (hb : ∀ t ∈ l, t.follow_up_count ≤ n)
    (hc : (l.getD q default).follow_up_count < n) :
    ∀ t ∈ modifyAt l q (fun t => { t with follow_up_count := t.follow_up_count + 1 }),
      t.follow_up_count ≤ n := by
  intro t ht
  rcases mem_modifyAt_or _ _ _ t ht with h | ⟨hq, h⟩
  · exact hb t h
  · subst h
    show (l.get ⟨q, hq⟩).follow_up_count + 1 ≤ n
    rw [getD_eq_get _ _ _ hq] at hc
    exact hc

/-- One evaluation step preserves the counter bound: the counter is
incremented only under the strict guard against the module budget. -/
theorem scr_eval_countsBounded (cfg : ScrAgents.JobConfig) (s : ScrAgents.AgentState)
    (v : ScrAgents.Verdict) (hb : ScrAgents.countsBounded cfg s) :
    ScrAgents.countsBounded cfg (ScrAgents.node_evaluate_answer cfg s v) := by
  unfold ScrAgents.countsBounded at hb ⊢
  unfold ScrAgents.node_evaluate_answer
  dsimp only
  repeat' split
  all_goals
    first
      | exact hb
      | exact qtrack_bounded_hist _ _ _ v hb
      | exact qtrack_bounded_hist _ _ _ v (qtrack_bounded_new _ _ _ hb)
      | exact qtrack_bounded_inc _ _ _
          (qtrack_bounded_hist _ _ _ v hb) (by assumption)
      | exact qtrack_bounded_inc _ _ _
          (qtrack_bounded_hist _ _ _ v (qtrack_bounded_new _ _ _ hb)) (by assumption)

/-- C3: the per-question follow-up counter never exceeds the configured
maximum in any reachable session state; and with a budget of 2 and a
judge that keeps returning a follow-up for the first question, exactly the
main question plus 2 follow-up prompts (3 prompts in total, each shown in
`last_prompt` as it is asked, the follow-ups in generation order) are
emitted before `q_idx` advances — and on the exhausting third evaluation
`q_idx` advances to 1 whatever the judge returned for it. -/
theorem c3_followup_budget :
    (∀ (cfg : ScrAgents.JobConfig) (s : ScrAgents.AgentState),
        ScrAgents.Reachable cfg s → ScrAgents.countsBounded cfg s) ∧
    (∀ (cfg : ScrAgents.JobConfig) (a1 a2 a3 : String)
        (v1 v2 v3 : ScrAgents.Verdict),
        cfg.no_followup_chances = 2 →
        0 < cfg.questions.length →
        pyStrip v1.follow_up ≠ "" →
        pyStrip v2.follow_up ≠ "" →
        let s0 := ScrAgents.initial_state_from_config cfg
        let s1 := ScrAgents.node_ask_question s0 a1
        let s2 := ScrAgents.node_evaluate_answer cfg s1 v1
        let s3 := ScrAgents.node_ask_question s2 a2
        let s4 := ScrAgents.node_evaluate_answer cfg s3 v2
        let s5 := ScrAgents.node_ask_question s4 a3
        let s6 := ScrAgents.node_evaluate_answer cfg s5 v3
        s1.last_prompt = some ((cfg.questions.getD 0 default).text) ∧ s1.q_idx = 0 ∧
        s2.q_idx = 0 ∧
        s3.last_prompt = some (pyStrip v1.follow_up) ∧ s3.q_idx = 0 ∧
        s4.q_idx = 0 ∧
        s5.last_prompt = some (pyStrip v2.follow_up) ∧ s5.q_idx = 0 ∧
        s6.q_idx = 1 ∧ s6.pending_followups = []) := by
  constructor
  · intro cfg s h
    induction h with
    | init =>
        intro t ht
        simp [ScrAgents.initial_state_from_config] at ht
    | ask s a hs ih =>
        intro t ht
        rw [scr_ask_llm_responses] at ht
        exact ih t ht
    | eval s v hs ih =>
        exact scr_eval_countsBounded cfg s v ih
  · intro cfg a1 a2 a3 v1 v2 v3 hm hq h1 h2
    have hnle : ¬ cfg.questions.length ≤ 0 := Nat.not_le.mpr hq
    have e1 : ScrAgents.node_ask_question (ScrAgents.initial_state_from_config cfg) a1 =
        ⟨cfg.jd, cfg.questions, 0, some a1, [],
         some ((cfg.questions.getD 0 default).text), [], [], false, "", ""⟩ := by
      simp [ScrAgents.node_ask_question, ScrAgents.initial_state_from_config, hnle]
    have e2 : ScrAgents.node_evaluate_answer cfg
        (⟨cfg.jd, cfg.questions, 0, some a1, [],
          some ((cfg.questions.getD 0 default).text), [], [], false, "", ""⟩ :
            ScrAgents.AgentState) v1 =
        ⟨cfg.jd, cfg.questions, 0, some a1, [pyStrip v1.follow_up],
         some ((cfg.questions.getD 0 default).text),
         [⟨(cfg.questions.getD 0 default).id, (cfg.questions.getD 0 default).text,
           pyStrip a1, (cfg.questions.getD 0 default).guidance⟩],
         [⟨0, 1, [v1]⟩], false, "", ""⟩ := by
      simp [ScrAgents.node_evaluate_answer, modifyAt, hnle, h1, hm]
    have e3 : ScrAgents.node_ask_question
        (⟨cfg.jd, cfg.questions, 0, some a1, [pyStrip v1.follow_up],
          some ((cfg.questions.getD 0 default).text),
          [⟨(cfg.questions.getD 0 default).id, (cfg.questions.getD 0 default).text,
            pyStrip a1, (cfg.questions.getD 0 default).guidance⟩],
          [⟨0, 1, [v1]⟩], false, "", ""⟩ : ScrAgents.AgentState) a2 =
        ⟨cfg.jd, cfg.questions, 0, some a2, [],
         some (pyStrip v1.follow_up),
         [⟨(cfg.questions.getD 0 default).id, (cfg.questions.getD 0 default).text,
           pyStrip a1, (cfg.questions.getD 0 default).guidance⟩],
         [⟨0, 1, [v1]⟩], false, "", ""⟩ := by
      simp [ScrAgents.node_ask_question]
    have e4 : ScrAgents.node_evaluate_answer cfg
        (⟨cfg.jd, cfg.questions, 0, some a2, [],
          some (pyStrip v1.follow_up),
          [⟨(cfg.questions.getD 0 default).id, (cfg.questions.getD 0 default).text,
            pyStrip a1, (cfg.questions.getD 0 default).guidance⟩],
          [⟨0, 1, [v1]⟩], false, "", ""⟩ : ScrAgents.AgentState) v2 =
        ⟨cfg.jd, cfg.questions, 0, some a2, [pyStrip v2.follow_up],
         some (pyStrip v1.follow_up),
         [⟨(cfg.questions.getD 0 default).id, (cfg.questions.getD 0 default).text,
           pyStrip a1, (cfg.questions.getD 0 default).guidance⟩,
          ⟨(cfg.questions.getD 0 default).id, (cfg.questions.getD 0 default).text,
           pyStrip a2, (cfg.questions.getD 0 default).guidance⟩],
         [⟨0, 2, [v1, v2]⟩], false, "", ""⟩ := by
      simp [ScrAgents.node_evaluate_answer, modifyAt, hnle, h2, hm]
    have e5 : ScrAgents.node_ask_question
        (⟨cfg.jd, cfg.questions, 0, some a2, [pyStrip v2.follow_up],
          some (pyStrip v1.follow_up),
          [⟨(cfg.questions.getD 0 default).id, (cfg.questions.getD 0 default).text,
            pyStrip a1, (cfg.questions.getD 0 default).guidance⟩,
           ⟨(cfg.questions.getD 0 default).id, (cfg.questions.getD 0 default).text,
            pyStrip a2, (cfg.questions.getD 0 default).guidance⟩],
          [⟨0, 2, [v1, v2]⟩], false, "", ""⟩ : ScrAgents.AgentState) a3 =
        ⟨cfg.jd, cfg.questions, 0, some a3, [],
         some (pyStrip v2.follow_up),
         [⟨(cfg.questions.getD 0 default).id, (cfg.questions.getD 0 default).text,
           pyStrip a1, (cfg.questions.getD 0 default).guidance⟩,
          ⟨(cfg.questions.getD 0 default).id, (cfg.questions.getD 0 default).text,
           pyStrip a2, (cfg.questions.getD 0 default).guidance⟩],
         [⟨0, 2, [v1, v2]⟩], false, "", ""⟩ := by
      simp [ScrAgents.node_ask_question]
    have e6q : (ScrAgents.node_evaluate_answer cfg
        (⟨cfg.jd, cfg.questions, 0, some a3, [],
          some (pyStrip v2.follow_up),
          [⟨(cfg.questions.getD 0 default).id, (cfg.questions.getD 0 default).text,
            pyStrip a1, (cfg.questions.getD 0 default).guidance⟩,
           ⟨(cfg.questions.getD 0 default).id, (cfg.questions.getD 0 default).text,
            pyStrip a2, (cfg.questions.getD 0 default).guidance⟩],
          [⟨0, 2, [v1, v2]⟩], false, "", ""⟩ : ScrAgents.AgentState) v3).q_idx = 1 ∧
        (ScrAgents.node_evaluate_answer cfg
        (⟨cfg.jd, cfg.questions, 0, some a3, [],
          some (pyStrip v2.follow_up),
          [⟨(cfg.questions.getD 0 default).id, (cfg.questions.getD 0 default).text,
            pyStrip a1, (cfg.questions.getD 0 default).guidance⟩,
           ⟨(cfg.questions.getD 0 default).id, (cfg.questions.getD 0 default).text,
            pyStrip a2, (cfg.questions.getD 0 default).guidance⟩],
          [⟨0, 2, [v1, v2]⟩], false, "", ""⟩ : ScrAgents.AgentState) v3).pending_followups
          = [] := by
      by_cases h3 : pyStrip v3.follow_up = ""
      · constructor
        · simp [ScrAgents.node_evaluate_answer, modifyAt, hnle, h3, hm]
        · simp [ScrAgents.node_evaluate_answer, modifyAt, hnle, h3, hm]
      · constructor
        · simp [ScrAgents.node_evaluate_answer, modifyAt, hnle, h3, hm]
        · simp [ScrAgents.node_evaluate_answer, modifyAt, hnle, h3, hm]
    dsimp only
    rw [e1, e2, e3, e4, e5]
    exact ⟨rfl, rfl, rfl, rfl, rfl, rfl, rfl, rfl, e6q.1, e6q.2⟩

/-- Witness for C3: the counter bound at a concrete reachable state, and
the 3-prompt scenario at a concrete configuration with budget 2. -/
theorem c3_followup_budget_witness :
    (ScrAgents.countsBounded
      { jd := "jd", questions := [Agents.q1], no_followup_chances := 2 }
      (ScrAgents.node_evaluate_answer
        { jd := "jd", questions := [Agents.q1], no_followup_chances := 2 }
        (ScrAgents.node_ask_question
          (ScrAgents.initial_state_from_config
            { jd := "jd", questions := [Agents.q1], no_followup_chances := 2 }) "one")
        { keywords := [], overall_assessment := "", score := "",
          follow_up := "what about ttl?" })) ∧
    (let cfg : ScrAgents.JobConfig :=
       { jd := "jd", questions := [Agents.q1], no_followup_chances := 2 }
     let v1 : ScrAgents.Verdict :=
       { keywords := [], overall_assessment := "", score := "",
         follow_up := "what about ttl?" }
     let v2 : ScrAgents.Verdict :=
       { keywords := [], overall_assessment := "", score := "",
         follow_up := "anything else?" }
     let v3 : ScrAgents.Verdict :=
       { keywords := [], overall_assessment := "", score := "", follow_up := "" }
     let s0 := ScrAgents.initial_state_from_config cfg
     let s1 := ScrAgents.node_ask_question s0 "one"
     let s2 := ScrAgents.node_evaluate_answer cfg s1 v1
     let s3 := ScrAgents.node_ask_question s2 "two"
     let s4 := ScrAgents.node_evaluate_answer cfg s3 v2
     let s5 := ScrAgents.node_ask_question s4 "three"
     let s6 := ScrAgents.node_evaluate_answer cfg s5 v3
     s1.last_prompt = some ((cfg.questions.getD 0 default).text) ∧ s1.q_idx = 0 ∧
     s2.q_idx = 0 ∧
     s3.last_prompt = some (pyStrip v1.follow_up) ∧ s3.q_idx = 0 ∧
     s4.q_idx = 0 ∧
     s5.last_prompt = some (pyStrip v2.follow_up) ∧ s5.q_idx = 0 ∧
     s6.q_idx = 1 ∧ s6.pending_followups = []) :=
  ⟨c3_followup_budget.1 _ _
      (ScrAgents.Reachable.eval _ _ (ScrAgents.Reachable.ask _ _ ScrAgents.Reachable.init)),
   c3_followup_budget.2 _ "one" "two" "three" _ _ _ rfl (by decide) (by decide) (by decide)⟩
